import Mathlib

/-!
# Verification of the aiyoutube-proxy task execution core

Shallow embedding of the task execution core of the `aiyoutube-proxy`
repository, which contains two parallel implementations of the same proxy:
`src/server.js` (Node, the deployed entry point) and `src/main.go` (Go
rewrite).  Definitions prefixed `js` embed `server.js`; definitions
prefixed `go` embed `main.go`.  Times are modelled in milliseconds as
naturals.
-/

set_option autoImplicit false

namespace AiProxy

/-! ## HTTP attempt results and the Retrying Invoker

`callAPIWithRetry` exists in both files (`server.js` lines 129-223,
`main.go` lines 261-352).  The environment `env : Nat → FetchResult`
gives the result that the n-th fetch attempt (1-indexed) observes:
an HTTP response with status and body, a transport error, or the firing
of the per-attempt timeout.
-/

/-- A response body as the JS code sees it: the raw text together with the
result of `JSON.parse` when the text parses as a JSON object (string-valued
fields only; the parse itself is a library primitive, so its result is part
of the input datum). -/
structure HttpBody where
  text : String
  jsonFields : Option (List (String × String))
deriving DecidableEq

/-- What one outbound fetch attempt observes. -/
inductive FetchResult where
  | resp (status : Nat) (body : HttpBody)
  | netErr (msg : String)
  | timeout
deriving DecidableEq

/-- Terminal result of the invoker: a 2xx body, or a failure message. -/
inductive InvokeOutcome where
  | success (body : HttpBody)
  | failure (msg : String)
deriving DecidableEq

/-- Observable trace of one invoker run: the outcome, how many fetch
attempts were made, and the backoff sleeps as (attempt number, duration in
ms) pairs, in order. -/
structure RunTrace where
  outcome : InvokeOutcome
  attempts : Nat
  sleeps : List (Nat × Nat)
deriving DecidableEq

/-- `server.js` line 192/213: `Math.min(1000 * Math.pow(2, attempt), 10000)`. -/
def jsWaitTime (attempt : Nat) : Nat := min (1000 * 2 ^ attempt) 10000

/-- `main.go` line 308/340: `time.Duration(attempt) * 2 * time.Second`. -/
def goWaitTime (attempt : Nat) : Nat := attempt * 2000

/-- JS falsy-aware lookup of a string field of the parsed error body:
`errorData.error || ...` skips fields that are the empty string. -/
def jsLookupField (fields : List (String × String)) (k : String) : Option String :=
  match fields.find? (fun f => f.1 == k) with
  | some f => if f.2 = "" then none else some f.2
  | none => none

/-- `server.js` lines 168-181: build the error message for a non-ok
response.  When the body parses as JSON, take `error`/`message`/
`error_description`, else the raw text (or `API error: <status>` when
empty); append the full response when it differs from the message. -/
def jsErrorMessage (status : Nat) (b : HttpBody) : String :=
  let base :=
    match b.jsonFields with
    | some fields =>
      ((jsLookupField fields "error" <|> jsLookupField fields "message" <|>
        jsLookupField fields "error_description")).getD b.text
    | none => if b.text = "" then "API error: " ++ toString status else b.text
  if b.text ≠ "" ∧ b.text ≠ base then base ++ "\n\nFull Response: " ++ b.text else base

/-- Classification of one fetch attempt in `server.js` (lines 163-209):
a 2xx returns the body; a non-ok response yields `jsErrorMessage`; an
abort names the 4-minute timeout; a transport error keeps its message.
Crucially, the 4xx short-circuit at line 187 (`throw lastError`) is
caught by the attempt's own `catch` at line 201, so a 4xx lands in the
same error class as a 5xx. -/
def jsAttemptResult (r : FetchResult) : Except String HttpBody :=
  match r with
  | .resp s b => if 200 ≤ s ∧ s < 300 then .ok b else .error (jsErrorMessage s b)
  | .netErr m => .error m
  | .timeout => .error "Request timeout after 4 minutes"

/-- The retry loop of `server.js` `callAPIWithRetry` (lines 132-220),
with `fuel` the number of loop iterations remaining
(`maxRetries - attempt + 1` at entry).  A 2xx returns the body.  Every
error — the caught 4xx throw included — reaches the same wait-and-retry
path: sleep `jsWaitTime attempt` and try again while
`attempt < maxRetries`, else surface the message. -/
def jsLoop (env : Nat → FetchResult) (maxRetries : Nat) :
    Nat → Nat → Option String → RunTrace
  | _, 0, lastError =>
    ⟨.failure (lastError.getD "API call failed after all retries"), 0, []⟩
  | attempt, fuel + 1, _ =>
    match jsAttemptResult (env attempt) with
    | .ok b => ⟨.success b, 1, []⟩
    | .error msg =>
      if attempt < maxRetries then
        let t := jsLoop env maxRetries (attempt + 1) fuel (some msg)
        ⟨t.outcome, t.attempts + 1, (attempt, jsWaitTime attempt) :: t.sleeps⟩
      else ⟨.failure msg, 1, []⟩

/-- `server.js` line 129: `maxRetries = 3` by default, attempts start at 1. -/
def jsCallAPIWithRetry (env : Nat → FetchResult) : RunTrace :=
  jsLoop env 3 1 3 none

/-- `main.go` line 25: `MaxRetries = 3`. -/
def goMaxRetries : Nat := 3

/-- The retry loop of `main.go` `callAPIWithRetry` (lines 264-349).
A 4xx returns the error immediately (line 333).  A 5xx on a non-final
attempt sleeps `goWaitTime attempt` and retries; on the final attempt the
loop body falls through the retry guard and reaches the unconditional
success return at line 348, yielding the 5xx body as a success.  A
transport error or timeout sleeps and retries on non-final attempts and
`continue`s without sleeping on the final one, after which the loop exits
with `all retry attempts failed`. -/
def goLoop (env : Nat → FetchResult) : Nat → Nat → Option String → RunTrace
  | _, 0, lastError =>
    ⟨.failure ("all retry attempts failed: " ++ lastError.getD ""), 0, []⟩
  | attempt, fuel + 1, _ =>
    match env attempt with
    | .resp s b =>
      if 400 ≤ s then
        let msg := "API returned error " ++ toString s ++ ": " ++ b.text
        if s < 500 then ⟨.failure msg, 1, []⟩
        else if attempt < goMaxRetries then
          let t := goLoop env (attempt + 1) fuel (some msg)
          ⟨t.outcome, t.attempts + 1, (attempt, goWaitTime attempt) :: t.sleeps⟩
        else ⟨.success b, 1, []⟩
      else ⟨.success b, 1, []⟩
    | .netErr m =>
      let msg := "request failed: " ++ m
      if attempt < goMaxRetries then
        let t := goLoop env (attempt + 1) fuel (some msg)
        ⟨t.outcome, t.attempts + 1, (attempt, goWaitTime attempt) :: t.sleeps⟩
      else
        let t := goLoop env (attempt + 1) fuel (some msg)
        ⟨t.outcome, t.attempts + 1, t.sleeps⟩
    | .timeout =>
      let msg := "request timeout after 4 minutes"
      if attempt < goMaxRetries then
        let t := goLoop env (attempt + 1) fuel (some msg)
        ⟨t.outcome, t.attempts + 1, (attempt, goWaitTime attempt) :: t.sleeps⟩
      else
        let t := goLoop env (attempt + 1) fuel (some msg)
        ⟨t.outcome, t.attempts + 1, t.sleeps⟩

/-- `main.go` lines 264-349: attempts run 1 to `MaxRetries`. -/
def goCallAPIWithRetry (env : Nat → FetchResult) : RunTrace :=
  goLoop env 1 goMaxRetries none

/-- A plain-text 400 body, not JSON. -/
def badBody : HttpBody := ⟨"Bad request", none⟩

/-- Environment in which every attempt receives HTTP 400. -/
def env400 : Nat → FetchResult := fun _ => .resp 400 badBody

/-- Environment in which every attempt receives HTTP 500. -/
def env500 : Nat → FetchResult := fun _ => .resp 500 badBody

/-! ## Substring search

`main.go` lines 210-217 define `findSubstring`, returning the first index
of `substr` in `s` or `-1`.  We model the `-1` sentinel as `none`.  The Go
original walks bytes of a UTF-8 string; we walk characters, which finds a
match at the same text position (all searched-for delimiters are ASCII and
UTF-8 continuation bytes never collide with ASCII).  The same helper also
models JS `String.prototype.includes`. -/

def findSubstringAux (sub : List Char) : List Char → Nat → Option Nat
  | [], i => if sub.isPrefixOf ([] : List Char) then some i else none
  | c :: rest, i =>
    if sub.isPrefixOf (c :: rest) then some i
    else findSubstringAux sub rest (i + 1)

/-- First index of `sub` in `s` (`main.go` `findSubstring`, with `-1`
rendered as `none`). -/
def findSub (s sub : String) : Option Nat :=
  findSubstringAux sub.toList s.toList 0

/-- JS `content.includes(sub)` / Go `findSubstring(content, sub) != -1`. -/
def containsSub (s sub : String) : Bool :=
  (findSub s sub).isSome

/-! ## The Node image-URL regex

`server.js` lines 412/443/699/730 extract the first match of
`/https?:\/\/[^\s\]}"']+\.(jpg|jpeg|png|webp|gif)/i` from a text.  The
model below implements exactly that ECMAScript match: leftmost start
position, greedy (longest-first, backtracking) character class, ordered
alternation of the extensions, case-insensitive literals. -/

/-- A character admitted by the class `[^\s\]}"']`: anything that is not
whitespace, `]`, `}`, the double quote, or the single quote (code 39). -/
def isUrlChar (c : Char) : Bool :=
  !(c.isWhitespace || c == ']' || c == '}' || c == '"' || c.toNat == 39)

/-- Match a literal pattern case-insensitively at the head of `cs`,
returning the consumed original characters and the rest. -/
def matchLitCI : List Char → List Char → Option (List Char × List Char)
  | [], cs => some ([], cs)
  | _ :: _, [] => none
  | p :: ps, c :: cs =>
    if c.toLower = p.toLower then
      (matchLitCI ps cs).map (fun r => (c :: r.1, r.2))
    else none

/-- Match one of the image extensions `jpg|jpeg|png|webp|gif` at the head
of `cs`, in the alternation order of the regex. -/
def extHere (cs : List Char) : Option (List Char × List Char) :=
  matchLitCI "jpg".toList cs <|> matchLitCI "jpeg".toList cs <|>
  matchLitCI "png".toList cs <|> matchLitCI "webp".toList cs <|>
  matchLitCI "gif".toList cs

/-- Greedy match of `[^\s\]}"']*\.(jpg|jpeg|png|webp|gif)` at the head of
`cs`: prefer consuming another class character (longest first) and
backtrack to trying `\.` plus an extension here.  Returns the consumed
characters. -/
def starDotExt : List Char → Option (List Char)
  | [] => none
  | c :: rest =>
    if isUrlChar c then
      match starDotExt rest with
      | some consumed => some (c :: consumed)
      | none =>
        if c = '.' then
          match extHere rest with
          | some (e, _) => some (c :: e)
          | none => none
        else none
    else none

/-- Greedy match of `[^\s\]}"']+\.(jpg|jpeg|png|webp|gif)`: at least one
class character, then `starDotExt`. -/
def plusDotExt : List Char → Option (List Char)
  | [] => none
  | c :: rest => if isUrlChar c then (starDotExt rest).map (c :: ·) else none

/-- Match the whole regex at the head of `cs` (`https?` is matched by
trying the `s` variant first, exactly as the greedy `s?` does). -/
def matchUrlAt (cs : List Char) : Option (List Char) :=
  match matchLitCI "https://".toList cs with
  | some (pre, rest) => (plusDotExt rest).map (pre ++ ·)
  | none =>
    match matchLitCI "http://".toList cs with
    | some (pre, rest) => (plusDotExt rest).map (pre ++ ·)
    | none => none

/-- Leftmost match of the regex anywhere in the character list. -/
def firstUrlMatch : List Char → Option (List Char)
  | [] => none
  | c :: rest =>
    match matchUrlAt (c :: rest) with
    | some m => some m
    | none => firstUrlMatch rest

/-- `content.match(/https?:\/\/[^\s\]}"']+\.(jpg|jpeg|png|webp|gif)/i)`,
taking `match[0]`. -/
def extractUrl (s : String) : Option String :=
  (firstUrlMatch s.toList).map (fun cs => String.mk cs)

/-! ## Provider response model (Node)

`server.js` consumes the provider's parsed JSON.  The fields the code
reads are modelled directly: `data.choices[i].message?.content` when it
is a string, and `data.candidates[i].content.parts` with each part's
`inlineData` (when the object is present) and `text` (when it is a
string). -/

structure JsPart where
  /-- `part.inlineData` as `(mimeType, data)` when the object is present. -/
  inlineData : Option (String × String)
  /-- `part.text` when present and a string. -/
  text : Option String
deriving DecidableEq

structure JsChoice where
  /-- `choice.message?.content` when it is a string (`typeof content ===
  'string'`); `none` when absent or of another type. -/
  content : Option String
deriving DecidableEq

structure JsCandidate where
  /-- `candidate.content && candidate.content.parts`. -/
  parts : Option (List JsPart)
deriving DecidableEq

structure JsData where
  choices : List JsChoice
  candidates : List JsCandidate
deriving DecidableEq

/-- The Gemini part loop of `server.js` lines 427-449: a part with
non-empty `inlineData.data` and `.mimeType` becomes a data URI and breaks
the loop; otherwise a non-empty `text` part can set the result from the
URL regex, but only when no result has been set yet, and scanning
continues (a later inline-data part still overrides). -/
def jsGeminiScan : List JsPart → Option String → Option String
  | [], acc => acc
  | p :: ps, acc =>
    match p.inlineData with
    | some (mime, d) =>
      if d ≠ "" ∧ mime ≠ "" then some ("data:" ++ mime ++ ";base64," ++ d)
      else
        match p.text with
        | some t =>
          if t ≠ "" then
            jsGeminiScan ps
              (match acc, extractUrl t with
               | none, some u => some u
               | _, _ => acc)
          else jsGeminiScan ps acc
        | none => jsGeminiScan ps acc
    | none =>
      match p.text with
      | some t =>
        if t ≠ "" then
          jsGeminiScan ps
            (match acc, extractUrl t with
             | none, some u => some u
             | _, _ => acc)
        else jsGeminiScan ps acc
      | none => jsGeminiScan ps acc

/-- `server.js` lines 402-452: the extracted `imageUrlResult`.  For
`sora_image` the first choice's string content is scanned with the URL
regex; for every other model the Gemini candidate/part scan runs. -/
def jsExtractResult (model : String) (data : JsData) : Option String :=
  if model = "sora_image" then
    match data.choices.head? with
    | some c =>
      match c.content with
      | some s => extractUrl s
      | none => none
    | none => none
  else
    match data.candidates.head? with
    | some cand =>
      match cand.parts with
      | some ps => jsGeminiScan ps none
      | none => none
    | none => none

/-- A stored task record of the Node server (`/tmp` JSON file contents,
minus the timestamp). -/
structure JsRecord where
  success : Bool
  imageUrl : Option String
  error : Option String
  rawResponse : Option JsData
deriving DecidableEq

/-- `server.js` lines 395-399: the intermediate debug write performed
right after a 2xx body is parsed: `success: true`, the raw response, and
no `imageUrl`. -/
def jsIntermediateRecord (data : JsData) : JsRecord :=
  ⟨true, none, none, some data⟩

/-- `server.js` lines 454-492: the terminal record.  When extraction
produced a URL it is stored as a success; otherwise the error message is
the first choice's content verbatim when that content contains the
`生成失败` marker (lines 475-483), else the generic
`No image URL in response`. -/
def jsTerminalRecord (model : String) (data : JsData) : JsRecord :=
  match jsExtractResult model data with
  | some url => ⟨true, some url, none, some data⟩
  | none =>
    let errorMessage :=
      match data.choices.head? with
      | some c =>
        match c.content with
        | some content =>
          if containsSub content "生成失败" then content
          else "No image URL in response"
        | none => "No image URL in response"
      | none => "No image URL in response"
    ⟨false, none, some errorMessage, some data⟩

/-- Observable actions of the Node background executor.  The `callback`
constructor exists to make "no callback is ever sent" expressible; the
Node code never constructs it. -/
inductive JsEvent where
  | store (r : JsRecord)
  | callback (url : String)
deriving DecidableEq

def isJsCallback : JsEvent → Bool
  | .callback _ => true
  | .store _ => false

/-- `server.js` `processGeneration` (lines 305-530) after the provider
call resolved, as the chronological list of store/callback actions.
`callbackUrl` is accepted in the inbound request body but the Node async
path never reads it (`// callbackUrl removed - using polling instead`,
line 274): every callback send was removed in favour of polling.  On a
2xx the raw response is stored first (debug snapshot), then the terminal
record; on an invoker error the catch block stores the failure. -/
def jsProcessGeneration (model : String) (callbackUrl : String)
    (callResult : Except String JsData) : List JsEvent :=
  match callResult with
  | .error e => [.store ⟨false, none, some e, none⟩]
  | .ok data =>
    [.store (jsIntermediateRecord data), .store (jsTerminalRecord model data)]

/-! ## Task store (Node)

`server.js` lines 540-570: `storeResult` writes `/tmp/aiyoutube-results/
<taskId>.json` and schedules an unlink 30 minutes later; `getResult`
reads the file, `null` when absent. -/

/-- Effect of one `storeResult` call: the record written and the instant
at which the scheduled unlink fires (`setTimeout(..., 30 * 60 * 1000)`,
line 549-555). -/
structure JsStoreEffect where
  record : JsRecord
  unlinkAt : Nat
deriving DecidableEq

def jsStoreResult (now : Nat) (r : JsRecord) : JsStoreEffect :=
  ⟨r, now + 30 * 60 * 1000⟩

/-- The record `getResult` returns at time `t` after the chronologically
ordered `writes` for one taskId: the last write at or before `t`, unless
an unlink scheduled by some write (firing 30 minutes after it) has fired
at or before `t` without a later write re-creating the file. -/
def jsReadAt (writes : List (Nat × JsRecord)) (t : Nat) : Option JsRecord :=
  let before := writes.filter (fun w => w.1 ≤ t)
  match before.getLast? with
  | none => none
  | some (wt, r) =>
    if before.any (fun w => decide (w.1 + 30 * 60 * 1000 ≤ t) &&
        decide (wt ≤ w.1 + 30 * 60 * 1000)) then none
    else some r

/-- Body of the Node status endpoint's JSON answer
(`server.js` lines 573-596). -/
inductive StatusBody where
  | processing (message : String)
  | completed (imageUrl : Option String)
  | failed (error : Option String)
deriving DecidableEq

def isProcessing : StatusBody → Bool
  | .processing _ => true
  | _ => false

/-- `GET /api/status/:taskId` in `server.js`: an absent record answers
HTTP 200 with `status: 'processing'`; a stored record answers 200 with
`completed`/`failed` and whatever `imageUrl`/`error` the record holds. -/
def jsStatusRead (result : Option JsRecord) : Nat × StatusBody :=
  match result with
  | none => (200, .processing "Still generating...")
  | some r => if r.success then (200, .completed r.imageUrl) else (200, .failed r.error)

/-! ## Provider response model and extraction (Go) -/

structure GoPart where
  text : String
  inlineMimeType : String
  inlineData : String
deriving DecidableEq

/-- The two unmarshal targets of `extractImageURL` (`main.go` lines
106-207), flattened: `choices[i].message.content` and
`candidates[0].content.parts`.  `json.Unmarshal` of a JSON object into
these structs succeeds with zero values for missing fields, so the model
carries both views with empty defaults. -/
structure GoRaw where
  choices : List String
  candidates : List (List GoPart)
deriving DecidableEq

/-- `main.go` lines 139-148: scan from `startIdx` up to the first
terminator (space, newline, quotes, brackets, parens) or end of string. -/
def goUrlFrom (content : String) (startIdx : Nat) : String :=
  String.mk ((content.toList.drop startIdx).takeWhile
    (fun c => !(c == ' ' || c == '\n' || c == '"' || c.toNat == 39 ||
                c == ']' || c == '}' || c == ')' || c == '(')))

/-- `main.go` lines 152-154: the candidate URL must contain one of the
image extensions as a substring. -/
def goLooksLikeImage (url : String) : Bool :=
  (findSub url ".jpg").isSome || (findSub url ".jpeg").isSome ||
  (findSub url ".png").isSome || (findSub url ".webp").isSome ||
  (findSub url ".gif").isSome

/-- The sora part of `extractImageURL` (`main.go` lines 119-158) applied
to the first choice's content; `none` means fall through to the next
branch. -/
def goSoraScan (content : String) : Option (Except String String) :=
  if content ≠ "" then
    if (findSub content "生成失败").isSome || (findSub content "失败原因").isSome then
      some (.error ("generation failed: " ++ content))
    else
      match (findSub content "https://") <|> (findSub content "http://") with
      | some idx =>
        let url := goUrlFrom content idx
        if goLooksLikeImage url then some (.ok url) else none
      | none => none
  else none

/-- The gemini part loop of `extractImageURL` (`main.go` lines 178-202):
inline data becomes a data URI; otherwise a text part is scanned for an
`https://` URL ended by space/newline that contains `.jpg` or `.png`. -/
def goGeminiScan : List GoPart → Option (Except String String)
  | [] => none
  | p :: ps =>
    if p.inlineData ≠ "" ∧ p.inlineMimeType ≠ "" then
      some (.ok ("data:" ++ p.inlineMimeType ++ ";base64," ++ p.inlineData))
    else if p.text ≠ "" then
      match findSub p.text "https://" with
      | some idx =>
        let url := String.mk ((p.text.toList.drop idx).takeWhile
          (fun c => !(c == ' ' || c == '\n')))
        if (findSub url ".jpg").isSome || (findSub url ".png").isSome then
          some (.ok url)
        else goGeminiScan ps
      | none => goGeminiScan ps
    else goGeminiScan ps

/-- `main.go` `extractImageURL` (lines 106-207). -/
def goExtractImageURL (data : GoRaw) (model : String) : Except String String :=
  let soraStep : Option (Except String String) :=
    if model = "sora" ∨ model = "sora_image" then
      match data.choices.head? with
      | some content => goSoraScan content
      | none => none
    else none
  match soraStep with
  | some r => r
  | none =>
    let gemStep : Option (Except String String) :=
      if model = "gemini" then
        match data.candidates.head? with
        | some parts => goGeminiScan parts
        | none => none
      else none
    match gemStep with
    | some r => r
    | none => .error "no image URL found in response"

/-! ## Request building and provider selection -/

/-- A generation request as both servers accept it (`main.go` lines
40-50; the Node servers destructure the same fields).  Go zero values
model absent strings. -/
structure GenReq where
  model : String
  prompt : String
  imageUrl : String
  imageUrls : List String
  imageSize : String
  apiKey : String
  taskId : String
  parentTaskId : String
  callbackUrl : String
deriving DecidableEq

def chatCompletionsURL : String := "https://yunwu.zeabur.app/v1/chat/completions"

def geminiGenerateURL : String :=
  "https://yunwu.zeabur.app/v1beta/models/gemini-2.5-flash-image-preview:generateContent"

/-- `server.js` lines 316-318 (and 611-613): the Node provider selection
is a two-way ternary — `sora_image` goes to the chat-completions endpoint
and **every** other tag goes to the Gemini generateContent endpoint. -/
def jsApiUrl (model : String) : String :=
  if model = "sora_image" then chatCompletionsURL else geminiGenerateURL

/-- `main.go` lines 375-458: three-way switch on the model tag. -/
def goApiUrl (model : String) : String :=
  if model = "sora" ∨ model = "sora_image" then chatCompletionsURL
  else if model = "gemini" then geminiGenerateURL
  else chatCompletionsURL

/-- One segment of a chat-completions message content array. -/
inductive ChatPart where
  | text (s : String)
  | imageUrl (url : String)
deriving DecidableEq

/-- Chat content is either a bare string (no images) or an array. -/
inductive ChatContent where
  | str (s : String)
  | parts (l : List ChatPart)
deriving DecidableEq

/-- One part of a Gemini request body. -/
inductive GPart where
  | text (s : String)
  | inline (mimeType : String) (data : String)
deriving DecidableEq

/-- A provider-specific request body. -/
inductive ProviderBody where
  | chat (modelTag : String) (content : ChatContent)
  | gemini (parts : List GPart)
deriving DecidableEq

/-- `server.js` lines 329-343 / `main.go` lines 387-410: chat-completions
content; an array of one text segment followed by one image_url segment
per input image when any image is present, else a bare string. -/
def chatContentOf (prompt imageSize : String) (allImageUrls : List String) :
    ChatContent :=
  if allImageUrls.length > 0 then
    .parts (.text (prompt ++ " " ++ imageSize) ::
      allImageUrls.map (fun u => .imageUrl u))
  else .str (prompt ++ " " ++ imageSize)

/-- `server.js` lines 344-379: the Node Gemini body.  Only the single
`imageUrl` field is consulted (the `imageUrls` array is ignored here).
An http(s) reference is fetched and base64-encoded through the
environment `fetchBase64`; when the fetch fails (`none`) the original
reference is passed through unencoded. -/
def jsGeminiParts (prompt imageSize : String) (imageUrl : Option String)
    (fetchBase64 : String → Option String) : List GPart :=
  match imageUrl with
  | some u =>
    let base64Data :=
      if u.startsWith "http" then
        match fetchBase64 u with
        | some b => b
        | none => u
      else u
    [.text (prompt ++ " " ++ imageSize), .inline "image/jpeg" base64Data]
  | none => [.text (prompt ++ " " ++ imageSize)]

/-- `server.js` lines 320-321: `imageUrls || (imageUrl ? [imageUrl] : [])`
(note an empty array is truthy in JS and is kept). -/
def jsAllImageUrls (imageUrl : Option String) (imageUrls : Option (List String)) :
    List String :=
  match imageUrls with
  | some l => l
  | none =>
    match imageUrl with
    | some u => [u]
    | none => []

/-- The Node async request builder (`server.js` lines 315-380): endpoint
and body. -/
def jsBuildRequest (model prompt : String) (imageUrl : Option String)
    (imageUrls : Option (List String)) (imageSize : String)
    (fetchBase64 : String → Option String) : String × ProviderBody :=
  let allImageUrls := jsAllImageUrls imageUrl imageUrls
  if model = "sora_image" then
    (jsApiUrl model, .chat "sora_image" (chatContentOf prompt imageSize allImageUrls))
  else
    (jsApiUrl model, .gemini (jsGeminiParts prompt imageSize imageUrl fetchBase64))

/-- `main.go` lines 382-385 / 417-420: `imageUrls`, falling back to the
single `imageUrl` when the array is empty. -/
def goAllImageUrls (req : GenReq) : List String :=
  if req.imageUrls = [] ∧ req.imageUrl ≠ "" then [req.imageUrl] else req.imageUrls

/-- The Go request builder (`main.go` lines 371-458).  For `gemini`, each
input image reference is placed **directly** into `inline_data.data`
without any fetch or base64 step (the source comments say `This should be
base64, but keeping URL for now`).  The default branch passes the raw
model tag through. -/
def goBuildRequest (req : GenReq) : String × ProviderBody :=
  if req.model = "sora" ∨ req.model = "sora_image" then
    (chatCompletionsURL,
      .chat "sora_image" (chatContentOf req.prompt req.imageSize (goAllImageUrls req)))
  else if req.model = "gemini" then
    (geminiGenerateURL,
      .gemini (.text (req.prompt ++ " " ++ req.imageSize) ::
        (goAllImageUrls req).map (fun u => .inline "image/jpeg" u)))
  else
    (chatCompletionsURL,
      .chat req.model (.str (req.prompt ++ " " ++ req.imageSize)))

/-! ## Task executor and endpoints (Go) -/

/-- A stored Go task result (`main.go` lines 60-66, minus timestamp). -/
structure GoTaskResult where
  success : Bool
  imageUrl : String
  error : String
  rawResponse : Option GoRaw
deriving DecidableEq

/-- The callback payload (`main.go` lines 68-74). -/
structure CallbackPayload where
  taskId : String
  parentTaskId : String
  status : String
  imageUrl : String
  error : String
deriving DecidableEq

/-- Observable actions of the Go background executor: stores into the
task map, and callback POSTs with their timeout and delivery result. -/
inductive GoEvent where
  | store (r : GoTaskResult)
  | callback (p : CallbackPayload) (timeoutMs : Nat) (delivered : Bool)
deriving DecidableEq

def isGoCallback : GoEvent → Bool
  | .callback _ _ _ => true
  | .store _ => false

def goEventStores (evs : List GoEvent) : List GoTaskResult :=
  evs.filterMap (fun e => match e with | .store r => some r | _ => none)

/-- `sendCallback` (`main.go` lines 220-258) uses a 10-second context
timeout. -/
def goCallbackTimeoutMs : Nat := 10000

/-- `processGeneration` (`main.go` lines 355-563) after the provider call
resolved, as the chronological action list.  In every branch the terminal
result is stored first, then — iff a callback URL was supplied — exactly
one `sendCallback` is issued; its delivery result `cbDelivered` is only
logged. -/
def goProcessGeneration (req : GenReq) (callResult : Except String GoRaw)
    (cbDelivered : Bool) : List GoEvent :=
  match callResult with
  | .error e =>
    let errorMsg := "API call failed: " ++ e
    .store ⟨false, "", errorMsg, none⟩ ::
      (if req.callbackUrl ≠ "" then
        [.callback ⟨req.taskId, req.parentTaskId, "failed", "", errorMsg⟩
          goCallbackTimeoutMs cbDelivered]
      else [])
  | .ok data =>
    match goExtractImageURL data req.model with
    | .error e =>
      .store ⟨false, "", e, some data⟩ ::
        (if req.callbackUrl ≠ "" then
          [.callback ⟨req.taskId, req.parentTaskId, "failed", "", e⟩
            goCallbackTimeoutMs cbDelivered]
        else [])
    | .ok url =>
      .store ⟨true, url, "", some data⟩ ::
        (if req.callbackUrl ≠ "" then
          [.callback ⟨req.taskId, req.parentTaskId, "completed", url, ""⟩
            goCallbackTimeoutMs cbDelivered]
        else [])

/-- The terminal record `goProcessGeneration` stores, by branch. -/
def goTerminalRecord (req : GenReq) (callResult : Except String GoRaw) :
    GoTaskResult :=
  match callResult with
  | .error e => ⟨false, "", "API call failed: " ++ e, none⟩
  | .ok data =>
    match goExtractImageURL data req.model with
    | .error e => ⟨false, "", e, some data⟩
    | .ok url => ⟨true, url, "", some data⟩

/-- The callback payload `goProcessGeneration` sends, by branch. -/
def goCallbackPayload (req : GenReq) (callResult : Except String GoRaw) :
    CallbackPayload :=
  match callResult with
  | .error e => ⟨req.taskId, req.parentTaskId, "failed", "", "API call failed: " ++ e⟩
  | .ok data =>
    match goExtractImageURL data req.model with
    | .error e => ⟨req.taskId, req.parentTaskId, "failed", "", e⟩
    | .ok url => ⟨req.taskId, req.parentTaskId, "completed", url, ""⟩

/-- Body of the Go status endpoint's answer (`main.go` lines 727-738). -/
inductive GoStatusBody where
  | result (r : GoTaskResult)
  | err (msg : String)
deriving DecidableEq

/-- `GET /api/status/:taskId` in `main.go`: a stored result is returned
with HTTP 200; an unknown taskId answers HTTP 404 with
`{"error": "Task not found"}`. -/
def goStatusRead (stored : Option GoTaskResult) : Nat × GoStatusBody :=
  match stored with
  | some r => (200, .result r)
  | none => (404, .err "Task not found")

/-- The Go cleanup goroutine (`main.go` lines 741-760) ticks every 5
minutes and deletes every entry older than 10 minutes.  `goDeletedAt
writeTime t` holds when some tick at or before `t` found the entry's age
above 10 minutes. -/
def goDeletedAt (writeTime t : Nat) : Bool :=
  (List.range (t / (5 * 60 * 1000) + 1)).any
    (fun k => decide (5 * 60 * 1000 * k ≤ t ∧
      writeTime + 10 * 60 * 1000 < 5 * 60 * 1000 * k))

/-! ## The Node synchronous endpoint

`POST /api/generate` in `server.js` (lines 599-778).  Its body at line
616 reads `imageUrls`, a binding only the async handler destructures, so
every request that passes the credential check throws a `ReferenceError`
(`imageUrls is not defined`) before the provider is ever contacted; the
catch block (lines 757-777) then classifies that message. -/

/-- A sync response body: `{error}`, `{success:false, error}`, or
`{success:true, imageUrl, ...}`. -/
inductive SyncBody where
  | errOnly (error : String)
  | failure (error : String)
  | success (imageUrl : String)
deriving DecidableEq

def jsSyncGenerate (req : GenReq) : Nat × SyncBody :=
  if req.apiKey = "" then (401, .errOnly "API key required")
  else
    let errorMessage := "imageUrls is not defined"
    if containsSub errorMessage "timeout" then
      (504, .failure "Request timeout - API took too long to respond")
    else if containsSub errorMessage "API error: 4" then
      (400, .failure errorMessage)
    else (500, .failure errorMessage)

/-! ## Theorems -/

/-- Every sleep recorded by the Node retry loop uses the capped exponential
formula at its attempt number. -/
theorem jsLoop_sleep_eq (env : Nat → FetchResult) (maxR : Nat) :
    ∀ fuel attempt le n d, (n, d) ∈ (jsLoop env maxR attempt fuel le).sleeps →
      d = jsWaitTime n := by
  intro fuel
  induction fuel with
  | zero => intro attempt le n d h; simp [jsLoop] at h
  | succ fuel ih =>
    intro attempt le n d h
    simp only [jsLoop] at h
    split at h
    · simp at h
    · split at h
      · simp only [List.mem_cons, Prod.mk.injEq] at h
        rcases h with h | h
        · rcases h with ⟨h1, h2⟩
          simp [h1, h2]
        · exact ih (attempt + 1) _ n d h
      · simp at h

/-- Every sleep recorded by the Go retry loop happens at an attempt number
between the entry attempt and `MaxRetries` (exclusive), and lasts
`attempt * 2` seconds. -/
theorem goLoop_sleep_eq (env : Nat → FetchResult) :
    ∀ fuel attempt le n d, (n, d) ∈ (goLoop env attempt fuel le).sleeps →
      attempt ≤ n ∧ n < goMaxRetries ∧ d = goWaitTime n := by
  intro fuel
  induction fuel with
  | zero => intro attempt le n d h; simp [goLoop] at h
  | succ fuel ih =>
    intro attempt le n d h
    simp only [goLoop] at h
    split at h
    · split at h
      · split at h
        · simp at h
        · split at h
          · simp only [List.mem_cons, Prod.mk.injEq] at h
            rcases h with h | h
            · rcases h with ⟨h1, h2⟩
              subst h1; subst h2
              exact ⟨le_refl _, by omega, rfl⟩
            · obtain ⟨ha, hb, hc⟩ := ih (attempt + 1) _ n d h
              exact ⟨by omega, hb, hc⟩
          · simp at h
      · simp at h
    · split at h
      · simp only [List.mem_cons, Prod.mk.injEq] at h
        rcases h with h | h
        · rcases h with ⟨h1, h2⟩
          subst h1; subst h2
          exact ⟨le_refl _, by omega, rfl⟩
        · obtain ⟨ha, hb, hc⟩ := ih (attempt + 1) _ n d h
          exact ⟨by omega, hb, hc⟩
      · obtain ⟨ha, hb, hc⟩ := ih (attempt + 1) _ n d h
        exact ⟨by omega, hb, hc⟩
    · split at h
      · simp only [List.mem_cons, Prod.mk.injEq] at h
        rcases h with h | h
        · rcases h with ⟨h1, h2⟩
          subst h1; subst h2
          exact ⟨le_refl _, by omega, rfl⟩
        · obtain ⟨ha, hb, hc⟩ := ih (attempt + 1) _ n d h
          exact ⟨by omega, hb, hc⟩
      · obtain ⟨ha, hb, hc⟩ := ih (attempt + 1) _ n d h
        exact ⟨by omega, hb, hc⟩

/-- C1: an HTTP 400 is NOT terminal in the Node invoker.  Evaluating
`server.js` `callAPIWithRetry` in the environment where every attempt
answers 400 (the spec's `[400]` sequence) makes 3 attempts with backoff
sleeps of 2000ms and 4000ms before failing, because the `throw lastError`
for client errors at line 187 is caught by the attempt's own `catch` at
line 201 — contradicting the adjacent comment `Don't retry on client
errors (4xx)` and the claim.  The Go invoker does terminate after exactly
1 attempt with no sleep, as the claim states. -/
theorem c1_node_invoker_retries_4xx :
    jsCallAPIWithRetry env400 =
      ⟨.failure "Bad request", 3, [(1, 2000), (2, 4000)]⟩ ∧
    goCallAPIWithRetry env400 =
      ⟨.failure "API returned error 400: Bad request", 1, []⟩ :=
  ⟨rfl, rfl⟩

/-- C5: in every run of either invoker, a backoff sleep recorded at
attempt number `n` lasts exactly `min (1000 * 2 ^ n) 10000` milliseconds.
(`server.js` computes this formula literally; `main.go` sleeps
`n * 2` seconds, which coincides with the formula on the only attempt
numbers `1` and `2` that can ever be followed by a retry.) -/
theorem c5_backoff_is_capped_exponential (env : Nat → FetchResult) (n d : Nat) :
    ((n, d) ∈ (jsCallAPIWithRetry env).sleeps → d = min (1000 * 2 ^ n) 10000) ∧
    ((n, d) ∈ (goCallAPIWithRetry env).sleeps → d = min (1000 * 2 ^ n) 10000) := by
  constructor
  · intro h
    exact jsLoop_sleep_eq env 3 3 1 none n d h
  · intro h
    obtain ⟨h1, h2, h3⟩ := goLoop_sleep_eq env goMaxRetries 1 none n d h
    subst h3
    have h2' : n < 3 := h2
    interval_cases n <;> rfl

/-- Witness for C5: the first sleep of the Node invoker run against
persistent 500s occurs at attempt 1 and lasts `min (1000 * 2 ^ 1) 10000`
= 2000ms. -/
theorem c5_backoff_witness :
    (1, 2000) ∈ (jsCallAPIWithRetry env500).sleeps ∧
      2000 = min (1000 * 2 ^ 1) 10000 :=
  ⟨by decide, (c5_backoff_is_capped_exponential env500 1 2000).1 (by decide)⟩

/-- C2 counterexample: in the Node extraction a message text containing
both the failure marker and a well-formed image URL yields a **Success**
with the URL — the URL scan at `server.js` line 412 runs first and the
marker check at line 479 only runs when no URL was found — contradicting
the claim that such a text yields a Failure with the verbatim text. -/
theorem c2_cex_node_url_wins_over_marker :
    jsTerminalRecord "sora_image"
      ⟨[⟨some "生成失败 ❌ https://a.com/x.png 失败原因：input_moderation"⟩], []⟩ =
      ⟨true, some "https://a.com/x.png", none,
        some ⟨[⟨some "生成失败 ❌ https://a.com/x.png 失败原因：input_moderation"⟩], []⟩⟩ := by
  decide

/-- C2 (amended): in the Node extraction, when the first choice's text
contains the failure marker **and no image URL matches in it**, the
outcome is a Failure whose error message is the text verbatim; the Go
extraction checks the marker before any URL scan but prefixes
`generation failed: ` to the text instead of keeping it verbatim. -/
theorem c2_marker_failure_when_no_url (content : String)
    (hurl : extractUrl content = none)
    (hmk : containsSub content "生成失败" = true)
    (hne : content ≠ "") :
    jsTerminalRecord "sora_image" ⟨[⟨some content⟩], []⟩ =
      ⟨false, none, some content, some ⟨[⟨some content⟩], []⟩⟩ ∧
    goExtractImageURL ⟨[content], []⟩ "sora_image" =
      .error ("generation failed: " ++ content) := by
  have hmk' : (findSub content "生成失败").isSome = true := by
    simpa [containsSub] using hmk
  constructor
  · simp [jsTerminalRecord, jsExtractResult, hurl, hmk]
  · simp [goExtractImageURL, goSoraScan, hne, hmk']

/-- Witness for C2's amended claim at the spec's own example text. -/
theorem c2_marker_failure_witness :
    jsTerminalRecord "sora_image" ⟨[⟨some "生成失败 ❌ 失败原因：input_moderation"⟩], []⟩ =
      ⟨false, none, some "生成失败 ❌ 失败原因：input_moderation",
        some ⟨[⟨some "生成失败 ❌ 失败原因：input_moderation"⟩], []⟩⟩ :=
  (c2_marker_failure_when_no_url "生成失败 ❌ 失败原因：input_moderation"
    (by decide) (by decide) (by decide)).1

/-- C3: the Node synchronous endpoint can never produce the
`{success, imageUrl}` envelope.  Its handler body reads the undeclared
binding `imageUrls` (`server.js` line 616; only the async handler
destructures it), so every request that passes the credential check
throws `ReferenceError: imageUrls is not defined` before the provider is
contacted, and the catch maps it to HTTP 500 with
`{success:false, error}`. -/
theorem c3_node_sync_endpoint_always_500 (req : GenReq)
    (h : req.apiKey ≠ "") :
    jsSyncGenerate req = (500, .failure "imageUrls is not defined") := by
  unfold jsSyncGenerate
  rw [if_neg h]
  decide

/-- Witness for C3 at a concrete well-formed request. -/
theorem c3_node_sync_witness :
    jsSyncGenerate ⟨"sora_image", "a cat", "", [], "[16:9]", "sk-key", "t1", "", ""⟩ =
      (500, .failure "imageUrls is not defined") :=
  c3_node_sync_endpoint_always_500
    ⟨"sora_image", "a cat", "", [], "[16:9]", "sk-key", "t1", "", ""⟩ (by decide)

/-- C4 counterexample: the Node provider selection routes the unknown tag
`flux` to the multimodal-generation (Gemini) endpoint, not to the
chat-completion endpoint as the claim states. -/
theorem c4_cex_node_unknown_tag_routes_to_gemini :
    jsApiUrl "flux" = geminiGenerateURL ∧
      geminiGenerateURL ≠ chatCompletionsURL := by
  refine ⟨rfl, ?_⟩
  decide

/-- C4 (amended): provider selection is a pure function of the model tag
in both servers, but they disagree outside the known families: the Go
server sends any tag that is neither sora- nor gemini-family to the
chat-completion endpoint with the raw tag passed through in the body,
while the Node server routes every tag other than `sora_image` to the
multimodal-generation endpoint. -/
theorem c4_provider_selection_amended (req : GenReq)
    (h1 : req.model ≠ "sora") (h2 : req.model ≠ "sora_image")
    (h3 : req.model ≠ "gemini") :
    goBuildRequest req =
      (chatCompletionsURL,
        .chat req.model (.str (req.prompt ++ " " ++ req.imageSize))) ∧
    jsApiUrl req.model = geminiGenerateURL := by
  constructor
  · unfold goBuildRequest
    rw [if_neg (by simp [h1, h2]), if_neg h3]
  · unfold jsApiUrl
    rw [if_neg h2]

/-- Witness for C4's amended claim at the tag `flux`. -/
theorem c4_provider_selection_witness :
    goBuildRequest ⟨"flux", "p", "", [], "[1:1]", "k", "t", "", ""⟩ =
      (chatCompletionsURL, .chat "flux" (.str "p [1:1]")) :=
  (c4_provider_selection_amended ⟨"flux", "p", "", [], "[1:1]", "k", "t", "", ""⟩
    (by decide) (by decide) (by decide)).1

/-- C6 counterexample: in the Go server an entry written at time 0 has
been deleted by the cleanup sweeper at t = 20 minutes (the tick at 15
minutes found it older than 10 minutes), although the claim's 30-minute
retention window has not elapsed — so its outcome is unreadable before
expiry and a poll returns the not-found answer despite the terminal
write. -/
theorem c6_cex_go_entry_gone_before_30_minutes :
    goDeletedAt 0 1200000 = true ∧ (1200000 : Nat) < 30 * 60 * 1000 := by
  constructor
  · decide
  · decide

/-- C6 (amended): in the Node store every put schedules that entry's
deletion exactly 30 minutes after the write, and a read after a terminal
write and before any scheduled unlink has fired returns the terminal
record — never the Pending answer; the Go store instead sweeps every 5
minutes and deletes entries older than 10 minutes, so a Go entry can
only disappear more than 10 minutes after its write (and in general well
before 30). -/
theorem c6_retention_amended :
    (∀ now r, (jsStoreResult now r).unlinkAt = now + 30 * 60 * 1000) ∧
    (∀ w1 w2 t (r1 r2 : JsRecord), w1 ≤ w2 → w2 ≤ t → t < w1 + 30 * 60 * 1000 →
      jsReadAt [(w1, r1), (w2, r2)] t = some r2 ∧
      isProcessing (jsStatusRead (some r2)).2 = false) ∧
    (∀ w t, goDeletedAt w t = true → w + 10 * 60 * 1000 < t) := by
  refine ⟨fun now r => rfl, ?_, ?_⟩
  · intro w1 w2 t r1 r2 h12 h2t ht
    have hw1 : w1 ≤ t := le_trans h12 h2t
    have hn1 : ¬(w1 + 30 * 60 * 1000 ≤ t) := by omega
    have hn2 : ¬(w2 + 30 * 60 * 1000 ≤ t) := by omega
    constructor
    · simp [jsReadAt, hw1, h2t, hn1, hn2]
    · cases hr : r2.success <;> simp [jsStatusRead, isProcessing, hr]
  · intro w t h
    unfold goDeletedAt at h
    simp only [List.any_eq_true, List.mem_range, decide_eq_true_eq] at h
    obtain ⟨k, _, hle, hgt⟩ := h
    omega

/-- Witness for C6's amended claim at concrete instants and records. -/
theorem c6_retention_witness :
    (jsStoreResult 0 ⟨true, none, none, none⟩).unlinkAt = 0 + 30 * 60 * 1000 ∧
    jsReadAt [(0, ⟨true, none, none, none⟩), (1000, ⟨false, none, some "e", none⟩)]
      2000 = some ⟨false, none, some "e", none⟩ :=
  ⟨c6_retention_amended.1 0 ⟨true, none, none, none⟩,
   (c6_retention_amended.2.1 0 1000 2000 ⟨true, none, none, none⟩
     ⟨false, none, some "e", none⟩ (by decide) (by decide) (by decide)).1⟩

/-- C7 counterexample: the Go status endpoint answers a never-submitted
taskId with HTTP 404 and an error body `{"error": "Task not found"}`,
not with the `{status: "processing"}` envelope the claim requires. -/
theorem c7_cex_go_unknown_task_is_error :
    goStatusRead none = (404, .err "Task not found") ∧ (404 : Nat) ≠ 200 :=
  ⟨rfl, by decide⟩

/-- C7 (amended): a status read of a never-submitted taskId answers
HTTP 200 with `status: "processing"` in the Node server, but HTTP 404
with an error body in the Go server. -/
theorem c7_status_unknown_task_amended :
    jsStatusRead none = (200, .processing "Still generating...") ∧
    goStatusRead none = (404, .err "Task not found") :=
  ⟨rfl, rfl⟩

/-- C8: the claimed fetch-and-base64 step is missing from the code.  The
Go builder places a remote http reference **unencoded** into
`inline_data.data` (no fetch is even attempted; the source's own comment
reads `This should be base64, but keeping URL for now`), and the Node
builder ignores the `imageUrls` array for the Gemini family (only the
single `imageUrl` field is fetched), producing no inline part at all for
an array-supplied image even when fetching succeeds. -/
theorem c8_gemini_images_not_base64_encoded :
    (goBuildRequest ⟨"gemini", "p", "http://example.com/a.jpg", [], "[1:1]",
      "k", "t", "", ""⟩).2 =
      .gemini [.text "p [1:1]", .inline "image/jpeg" "http://example.com/a.jpg"] ∧
    (jsBuildRequest "gemini" "p" none (some ["http://e/a.jpg"]) "[1:1]"
      (fun _ => some "QUJD")).2 = .gemini [.text "p [1:1]"] :=
  ⟨rfl, rfl⟩

/-- C9 counterexample: the Node executor sends no outbound notification
at all — here a task with a callback URL supplied reaches the terminal
Failure state and the action list contains zero callback POSTs, not
exactly one. -/
theorem c9_cex_node_sends_no_callback :
    jsProcessGeneration "sora_image" "https://callback.example.com"
      (.error "boom") = [.store ⟨false, none, some "boom", none⟩] ∧
    List.filter isJsCallback
      (jsProcessGeneration "sora_image" "https://callback.example.com"
        (.error "boom")) = [] :=
  ⟨rfl, rfl⟩

/-- C9 (amended): in the Go server every task reaching a terminal state
with a callback URL supplied issues exactly one notification POST, with a
10-second timeout, emitted after the terminal store, and the delivery
result never alters what was stored; the Node server issues no
notification at all (results are delivered by polling). -/
theorem goProcessGeneration_eq (req : GenReq) (callResult : Except String GoRaw)
    (d : Bool) :
    goProcessGeneration req callResult d =
      .store (goTerminalRecord req callResult) ::
        (if req.callbackUrl ≠ "" then
          [.callback (goCallbackPayload req callResult) goCallbackTimeoutMs d]
        else []) := by
  rcases callResult with e | data
  · rfl
  · simp only [goProcessGeneration, goTerminalRecord, goCallbackPayload]
    rcases goExtractImageURL data req.model with e | url <;> rfl

theorem c9_callbacks_amended (req : GenReq) (callResult : Except String GoRaw)
    (d : Bool) (h : req.callbackUrl ≠ "") :
    (List.filter isGoCallback (goProcessGeneration req callResult d)).length = 1 ∧
    (∀ p t del, GoEvent.callback p t del ∈ goProcessGeneration req callResult d →
      t = goCallbackTimeoutMs) ∧
    goEventStores (goProcessGeneration req callResult true) =
      goEventStores (goProcessGeneration req callResult false) ∧
    (∃ r, (goProcessGeneration req callResult d).head? = some (.store r)) ∧
    (∀ model cb cr, List.filter isJsCallback (jsProcessGeneration model cb cr) = []) := by
  refine ⟨?_, ?_, ?_, ?_, ?_⟩
  · rw [goProcessGeneration_eq req callResult d, if_pos h]
    rfl
  · intro p t del hmem
    rw [goProcessGeneration_eq req callResult d, if_pos h] at hmem
    cases hmem with
    | tail _ hmem =>
      cases hmem with
      | head => rfl
      | tail _ hmem => cases hmem
  · rw [goProcessGeneration_eq req callResult true,
        goProcessGeneration_eq req callResult false]
    simp only [if_pos h]
    rfl
  · refine ⟨goTerminalRecord req callResult, ?_⟩
    rw [goProcessGeneration_eq req callResult d]
    rfl
  · intro model cb cr
    rcases cr with e | data <;> rfl

/-- Witness for C9's amended claim at a concrete failing task with a
callback URL. -/
theorem c9_callbacks_witness :
    (List.filter isGoCallback (goProcessGeneration
      ⟨"sora_image", "p", "", [], "s", "k", "t", "pt", "https://cb"⟩
      (.error "boom") true)).length = 1 :=
  (c9_callbacks_amended
    ⟨"sora_image", "p", "", [], "s", "k", "t", "pt", "https://cb"⟩
    (.error "boom") true (by decide)).1

/-- C10: in the Node server, a 2xx provider body is first stored as the
intermediate debug record (`success: true`, raw response, no `imageUrl`)
before extraction; a status read of that record answers HTTP 200 with
`status: "completed"` and an absent `imageUrl`; and when extraction then
fails, the terminal record stored afterwards is a Failure. -/
theorem c10_intermediate_snapshot (model cb : String) (data : JsData)
    (hfail : jsExtractResult model data = none) :
    jsProcessGeneration model cb (.ok data) =
      [.store (jsIntermediateRecord data), .store (jsTerminalRecord model data)] ∧
    jsStatusRead (some (jsIntermediateRecord data)) = (200, .completed none) ∧
    (jsTerminalRecord model data).success = false := by
  refine ⟨rfl, rfl, ?_⟩
  unfold jsTerminalRecord
  rw [hfail]

/-- Witness for C10 at a concrete response whose text holds no URL. -/
theorem c10_intermediate_snapshot_witness :
    jsProcessGeneration "sora_image" "" (.ok ⟨[⟨some "no image"⟩], []⟩) =
      [.store (jsIntermediateRecord ⟨[⟨some "no image"⟩], []⟩),
       .store (jsTerminalRecord "sora_image" ⟨[⟨some "no image"⟩], []⟩)] ∧
    jsStatusRead (some (jsIntermediateRecord ⟨[⟨some "no image"⟩], []⟩)) =
      (200, .completed none) ∧
    (jsTerminalRecord "sora_image" ⟨[⟨some "no image"⟩], []⟩).success = false :=
  c10_intermediate_snapshot "sora_image" "" ⟨[⟨some "no image"⟩], []⟩ (by decide)

end AiProxy
